import Mathlib

/-! Verification of the two Python scripts of this repository,
`examples/inverse/tauc_compare.py` and `test/regression/atmosphere_models.py`,
shallowly embedded in Lean.  Grid fields are embedded as functions from an
abstract cell type to rationals; masking steps follow the script line by line;
the test suite's file handling and pointwise-access bracketing are embedded as
explicit state/trace semantics.  Parts of the external PISM library that the
test exercises but that are absent from the sources are modelled from the spec
and marked as such. -/

/- ===================== tauc_compare.py ===================== -/

/-- Seconds per year, the constant `PISM.secpera` (3.15569259747e7) used at
lines 40-41 of `tauc_compare.py` to convert velocities to metres per year. -/
def secpera : ℚ := 315569259747 / 10000

/-- The named variables `tauc_compare.py` reads from the NetCDF dataset
(`ds.variables[...]`), in the order the script reads them (lines 29, 30, 34,
40, 41). -/
def variables_read : List String :=
  ["tauc", "tauc_true", "mask", "u_computed", "v_computed"]

/-- The dataset fields `tauc_compare.py` reads, each a scalar field over an
abstract grid-cell type `ι` (the script's 2D arrays after `squeeze()`). -/
structure Dataset (ι : Type) where
  tauc : ι → ℚ
  tauc_true : ι → ℚ
  mask : ι → ℚ
  u_computed : ι → ℚ
  v_computed : ι → ℚ

/-- Line 32: `tauc_diff = tauc - tauc_true`. -/
def tauc_diff0 {ι : Type} (ds : Dataset ι) (c : ι) : ℚ :=
  ds.tauc c - ds.tauc_true c

/-- Line 34: `not_ice = abs(mask - 2) > 0.01`. -/
def not_ice {ι : Type} (ds : Dataset ι) (c : ι) : Bool :=
  decide (|ds.mask c - 2| > 1 / 100)

/-- Line 40: `u_computed = ds.variables['u_computed'][...] * PISM.secpera`. -/
def u_scaled {ι : Type} (ds : Dataset ι) (c : ι) : ℚ := ds.u_computed c * secpera

/-- Line 41: `v_computed = ds.variables['v_computed'][...] * PISM.secpera`. -/
def v_scaled {ι : Type} (ds : Dataset ι) (c : ι) : ℚ := ds.v_computed c * secpera

/-- Line 42: the squared computed sliding speed
`u_computed**2 + v_computed**2` (the script takes its square root for the
third figure; we keep the square, which determines it). -/
def cbase_sq {ι : Type} (ds : Dataset ι) (c : ι) : ℚ :=
  u_scaled ds c * u_scaled ds c + v_scaled ds c * v_scaled ds c

/-- Line 44: `not_sliding = logical_and(abs(u_computed) < 10, abs(v_computed) < 10)`. -/
def not_sliding {ι : Type} (ds : Dataset ι) (c : ι) : Bool :=
  decide (|u_scaled ds c| < 10) && decide (|v_scaled ds c| < 10)

/-- Line 35: `tauc[not_ice] = 0`. -/
def tauc1 {ι : Type} (ds : Dataset ι) (c : ι) : ℚ :=
  if not_ice ds c then 0 else ds.tauc c

/-- Line 36: `tauc_true[not_ice] = 0`. -/
def tauc_true1 {ι : Type} (ds : Dataset ι) (c : ι) : ℚ :=
  if not_ice ds c then 0 else ds.tauc_true c

/-- Line 37: `tauc_diff[not_ice] = 0.`. -/
def tauc_diff1 {ι : Type} (ds : Dataset ι) (c : ι) : ℚ :=
  if not_ice ds c then 0 else tauc_diff0 ds c

/-- Line 45: `tauc[not_ice] = 0` (the script indexes by `not_ice` here,
not by `not_sliding`). -/
def tauc2 {ι : Type} (ds : Dataset ι) (c : ι) : ℚ :=
  if not_ice ds c then 0 else tauc1 ds c

/-- Line 46: `tauc_true[not_ice] = 0` (again indexed by `not_ice`). -/
def tauc_true2 {ι : Type} (ds : Dataset ι) (c : ι) : ℚ :=
  if not_ice ds c then 0 else tauc_true1 ds c

/-- Line 47: `tauc_diff[not_sliding] = 0.`. -/
def tauc_diff2 {ι : Type} (ds : Dataset ι) (c : ι) : ℚ :=
  if not_sliding ds c then 0 else tauc_diff1 ds c

/-- Line 52: the field shown in the first figure,
`tauc_diff.transpose() / tauc_true.transpose()` — a bare pointwise division
with no guard against a zero denominator. -/
def rel_diff {ι : Type} (ds : Dataset ι) (c : ι) : ℚ :=
  tauc_diff2 ds c / tauc_true2 ds c

/-- The script's command-line options after parsing: `--input_file` (string,
no default), `--tauc_cap` and `--rel_cap` (floats). -/
structure CmdOptions where
  input_file : Option String
  tauc_cap : ℚ
  rel_cap : ℚ

/-- A default value of a command-line option declaration: absent, or a float. -/
inductive OptDefault
  | noDefault
  | floatDefault (q : ℚ)
deriving DecidableEq

/-- One `parser.add_option` declaration: short flag, long flag, `type` string,
and default. -/
structure OptDecl where
  short : String
  long : String
  typeName : String
  dflt : OptDefault
deriving DecidableEq

/-- The three `parser.add_option` calls of `tauc_compare.py` (lines 17-22):
`-i` and `--input_file` of type string with no default, `-c` and `--tauc_cap`
of type float with default 200000, `-r` and `--rel_cap` of type float with
default 1.0. -/
def parser_options : List OptDecl :=
  [⟨"-i", "--input_file", "string", OptDefault.noDefault⟩,
   ⟨"-c", "--tauc_cap", "float", OptDefault.floatDefault 200000⟩,
   ⟨"-r", "--rel_cap", "float", OptDefault.floatDefault 1⟩]

/-- Colour-scale bounds of the first figure (line 52):
`vmin=-rel_cap, vmax=rel_cap`. -/
def fig_diff_bounds (o : CmdOptions) : ℚ × ℚ := (-o.rel_cap, o.rel_cap)

/-- Colour-scale bounds of the left panel of the second figure (line 59):
`vmin=0.0, vmax=options.tauc_cap`. -/
def fig_tauc_bounds (o : CmdOptions) : ℚ × ℚ := (0, o.tauc_cap)

/-- Colour-scale bounds of the right panel of the second figure (line 63):
`vmin=0.0, vmax=options.tauc_cap`. -/
def fig_tauc_true_bounds (o : CmdOptions) : ℚ × ℚ := (0, o.tauc_cap)

/-- Colour-scale bounds of the third figure (lines 69-70):
`LogNorm(vmin=0.1, vmax=1000.0)` — hard-coded constants, not read from the
parsed options. -/
def fig_speed_bounds (_o : CmdOptions) : ℚ × ℚ := (1 / 10, 1000)

/-- A one-cell dataset whose single cell is ice (`mask = 2`) and not sliding
(`u = v = 0`), with `tauc = 5` and `tauc_true = 1`. -/
def dsA : Dataset Unit :=
  ⟨fun _ => 5, fun _ => 1, fun _ => 2, fun _ => 0, fun _ => 0⟩

/-- A one-cell dataset like `dsA` but with `tauc_true = 3`. -/
def dsB : Dataset Unit :=
  ⟨fun _ => 5, fun _ => 3, fun _ => 2, fun _ => 0, fun _ => 0⟩

/-- A one-cell dataset whose single cell is not ice (`mask = 0`). -/
def dsC : Dataset Unit :=
  ⟨fun _ => 7, fun _ => 4, fun _ => 0, fun _ => 0, fun _ => 0⟩

/- ===================== atmosphere_models.py: file handling ===================== -/

/-- `o_filename = "tmp_model_state.nc"` in `write_state`. -/
def o_filename : String := "tmp_model_state.nc"

/-- `o_diagnostics = "tmp_diagnostics.nc"` in `write_state`. -/
def o_diagnostics : String := "tmp_diagnostics.nc"

/-- The fixture file the `PIK` test case dumps in `setUp` and removes in
`tearDown`: `"atmosphere_pik_input.nc"`. -/
def pik_fixture : String := "atmosphere_pik_input.nc"

/-- Creating a file: the file system is the list of existing file names. -/
def fs_create (fs : List String) (f : String) : List String :=
  if f ∈ fs then fs else f :: fs

/-- `os.remove f`: deletes the file when it exists, otherwise raises
(returns `Option.none`). -/
def fs_remove (fs : List String) (f : String) : Option (List String) :=
  if f ∈ fs then Option.some (fs.erase f) else Option.none

/-- Where the `try` block of `write_state` can raise, classified by which
scratch files exist at that point: before `tmp_model_state.nc` is created,
after it but before `tmp_diagnostics.nc` is created (model-state writes,
`close`, or `prepare_output` of the diagnostics file), after both are created
(diagnostics writes or the final `close`), or nowhere. -/
inductive WriteFail
  | noFailure
  | beforeStateFile
  | beforeDiagFile
  | afterBothFiles
deriving DecidableEq

/-- The files existing when control leaves the `try` block of `write_state`
(normally or by an exception at the given point). -/
def write_state_body (fp : WriteFail) (fs : List String) : List String :=
  match fp with
  | WriteFail.beforeStateFile => fs
  | WriteFail.beforeDiagFile => fs_create fs o_filename
  | _ => fs_create (fs_create fs o_filename) o_diagnostics

/-- The files existing after `write_state` finishes (normally or with a
propagating exception): the `finally` block runs
`os.remove(o_filename); os.remove(o_diagnostics)`, where a failing `remove`
aborts the rest of the block. -/
def write_state_run (fp : WriteFail) (fs : List String) : List String :=
  let fs2 := write_state_body fp fs
  match fs_remove fs2 o_filename with
  | Option.none => fs2
  | Option.some fs3 =>
    match fs_remove fs3 o_diagnostics with
    | Option.none => fs3
    | Option.some fs4 => fs4

/-- One run of the `PIK` test case: `setUp` dumps the fixture file; the test
body either raises an assertion before reaching `write_state` (when
`assertFails` is true) or runs `write_state` with failure point `fp`;
`tearDown` then removes the fixture (unittest runs `tearDown` even when the
test body raised). -/
def pik_test_run (assertFails : Bool) (fp : WriteFail) (fs : List String) :
    List String :=
  let fs1 := fs_create fs pik_fixture
  let fs2 := if assertFails then fs1 else write_state_run fp fs1
  match fs_remove fs2 pik_fixture with
  | Option.none => fs2
  | Option.some fs3 => fs3

/- ===================== atmosphere_models.py: pointwise access ===================== -/

/-- An event in the pointwise-access protocol of `check_model` and
`check_modifier`: a `begin_pointwise_access` or `end_pointwise_access` call on
a named object, or a raised time-series assertion. -/
inductive AccessEv
  | beginAccess (who : String)
  | endAccess (who : String)
  | assertionError
deriving DecidableEq

/-- The event trace of the `try`/`finally` block of `check_model`:
`model.begin_pointwise_access()`, the time-series assertions (which raise when
`ok` is false), then — in the `finally` block — `model.end_pointwise_access()`. -/
def check_model_trace (ok : Bool) : List AccessEv :=
  [AccessEv.beginAccess "model"] ++
    (if ok then [] else [AccessEv.assertionError]) ++
    [AccessEv.endAccess "model"]

/-- The event trace of the `try`/`finally` block of `check_modifier`:
`model.begin_pointwise_access()`, `modifier.begin_pointwise_access()`, the
time-series assertions (which raise when `ok` is false), then — in the
`finally` block — `modifier.end_pointwise_access()` followed by
`model.end_pointwise_access()`. -/
def check_modifier_trace (ok : Bool) : List AccessEv :=
  [AccessEv.beginAccess "model", AccessEv.beginAccess "modifier"] ++
    (if ok then [] else [AccessEv.assertionError]) ++
    [AccessEv.endAccess "modifier", AccessEv.endAccess "model"]

/- ===================== atmosphere_models.py: PIK model ===================== -/

/-- `self.geometry.latitude.set(-80.0)` in `PIK.setUp`. -/
def pik_latitude : ℚ := -80

/-- `self.P = 10.0` in `PIK.setUp`: the constant precipitation written to the
fixture file. -/
def pik_precipitation : ℚ := 10

/-- The mean-annual-temperature column of the `parameterizations` table in
`PIK.test_atmosphere_pik`: the value `check_model` asserts for each
parameterization name. -/
def pik_expected_T : String → Option ℚ
  | "martin" => Option.some (24813 / 100)
  | "huybrechts_dewolde" => Option.some (25259 / 100)
  | "martin_huybrechts_dewolde" => Option.some (24813 / 100)
  | "era_interim" => Option.some (25627 / 100)
  | "era_interim_sin" => Option.some (2553157700 / 10000000)
  | "era_interim_lon" => Option.some (248886139 / 1000000)
  | _ => Option.none

/-- The parameterization names the `PIK` test exercises (the keys of its
`parameterizations` table). -/
def pik_parameterization_names : List String :=
  ["martin", "huybrechts_dewolde", "martin_huybrechts_dewolde",
   "era_interim", "era_interim_sin", "era_interim_lon"]

/-- Modelled from the spec: the mean annual air temperature of the external
`PISM.AtmospherePIK` model (absent from the sources; only its regression test
is present) under the `"martin"` parameterization, the Martin et al. (2011)
fit PISM implements: `T = 273.15 + 30 - 0.0075 * surface_elevation -
0.68775 * |latitude|` (kelvin, metres, degrees).  The spec records the data
point that this yields 248.13 K at latitude -80 (with the test geometry's
zero surface elevation). -/
def martin_mean_annual_temp (elevation latitude : ℚ) : ℚ :=
  27315 / 100 + 30 - 75 / 10000 * elevation - 68775 / 100000 * |latitude|

/-- Modelled from the spec: constructing `PISM.AtmospherePIK` reads the
configuration string `atmosphere.pik.parameterization` and raises a runtime
error from the external library when the name is not a known
parameterization; otherwise construction succeeds. -/
def atmospherePIK_create (p : String) : Except String Unit :=
  if p ∈ pik_parameterization_names then Except.ok ()
  else Except.error ("invalid parameterization: " ++ p)

/- ===================== Theorems ===================== -/

/-- C5 counterexample: the script does not read four named variables from the
dataset — `variables_read`, the list of `ds.variables[...]` lookups, has five
entries, not four. -/
theorem C5_counterexample : ¬ variables_read.length = 4 := by decide

/-- C5 (amended): the visualization script reads exactly five distinct named
variables from the input dataset: `tauc`, `tauc_true`, `mask`, `u_computed`
and `v_computed`. -/
theorem C5_reads_five_variables :
    variables_read.length = 5 ∧ variables_read.Nodup := by decide

/-- C7 counterexample: not every command-line option of the plotting script
has a default value — the `--input_file` declaration carries no default. -/
theorem C7_counterexample :
    ¬ ∀ o ∈ parser_options, o.dflt ≠ OptDefault.noDefault := by decide

/-- C7 (amended): the plotting script's command-line interface accepts
exactly the flags `--input_file`, `--tauc_cap` and `--rel_cap`; `--tauc_cap`
defaults to 200000 and `--rel_cap` to 1.0, while `--input_file` has no
default. -/
theorem C7_cli_flags :
    parser_options.map OptDecl.long = ["--input_file", "--tauc_cap", "--rel_cap"] ∧
    parser_options.map OptDecl.dflt =
      [OptDefault.noDefault, OptDefault.floatDefault 200000,
       OptDefault.floatDefault 1] := by decide

/-- C6 counterexample: the log-scale speed map's colour bounds are not taken
from a command-line option — they are the same hard-coded pair (0.1, 1000)
for two option records that differ in every option value. -/
theorem C6_counterexample :
    fig_speed_bounds ⟨Option.none, 0, 0⟩ =
      fig_speed_bounds ⟨Option.some "a", 123, 456⟩ ∧
    fig_speed_bounds ⟨Option.none, 0, 0⟩ = (1 / 10, 1000) := ⟨rfl, rfl⟩

/-- C6 (amended): the difference map uses bounds [-rel_cap, rel_cap] and both
panels of the side-by-side comparison use [0, tauc_cap], all taken from
command-line options; the log-scale speed map instead uses the hard-coded
bounds [0.1, 1000.0], identical for all option values. -/
theorem C6_figure_bounds (o : CmdOptions) :
    fig_diff_bounds o = (-o.rel_cap, o.rel_cap) ∧
    fig_tauc_bounds o = (0, o.tauc_cap) ∧
    fig_tauc_true_bounds o = (0, o.tauc_cap) ∧
    fig_speed_bounds o = (1 / 10, 1000) ∧
    (∀ o2 : CmdOptions, fig_speed_bounds o = fig_speed_bounds o2) :=
  ⟨rfl, rfl, rfl, rfl, fun _ => rfl⟩

/-- C1 counterexample: a one-cell dataset whose cell is ice (`mask = 2`),
not sliding (`u = v = 0`) and has `tauc = 5`, `tauc_true = 1` refutes the
claim: after the masking steps the cell satisfies `not_sliding` yet `tauc`
and `tauc_true` are not 0 there. -/
theorem C1_counterexample :
    ¬ ∀ c : Unit, not_sliding dsA c = true →
        tauc2 dsA c = 0 ∧ tauc_true2 dsA c = 0 ∧ tauc_diff2 dsA c = 0 := by
  intro h
  have hns : not_sliding dsA () = true := by
    norm_num [not_sliding, u_scaled, v_scaled, dsA, secpera]
  have h5 : tauc2 dsA () = 5 := by
    norm_num [tauc2, tauc1, not_ice, dsA]
  have h0 := (h () hns).1
  rw [h5] at h0
  norm_num at h0

/-- C1 (amended): the masking step zeroes all three fields `tauc`,
`tauc_true` and `tauc_diff` at every non-ice cell, but at non-sliding cells
it zeroes only `tauc_diff`. -/
theorem C1_masking {ι : Type} (ds : Dataset ι) (c : ι) :
    (not_ice ds c = true →
      tauc2 ds c = 0 ∧ tauc_true2 ds c = 0 ∧ tauc_diff2 ds c = 0) ∧
    (not_sliding ds c = true → tauc_diff2 ds c = 0) := by
  constructor
  · intro h
    refine ⟨?_, ?_, ?_⟩
    · simp [tauc2, h]
    · simp [tauc_true2, h]
    · simp [tauc_diff2, tauc_diff1, h]
  · intro h
    simp [tauc_diff2, h]

/-- C1 witness: the amended statement applied to the concrete dataset `dsA`
at its single (non-sliding, ice) cell. -/
theorem C1_masking_witness :
    not_sliding dsA () = true ∧ tauc_diff2 dsA () = 0 := by
  have hns : not_sliding dsA () = true := by
    norm_num [not_sliding, u_scaled, v_scaled, dsA, secpera]
  exact ⟨hns, (C1_masking dsA ()).2 hns⟩

/-- C8: the non-sliding masking step (lines 44-47) changes only `tauc_diff`:
`tauc` and `tauc_true` are unchanged by it at every cell (lines 45-46 re-apply
the non-ice mask), and an ice cell that is non-sliding keeps its original
`tauc` and `tauc_true` values. -/
theorem C8_nonsliding_masks_only_taucdiff {ι : Type} (ds : Dataset ι) (c : ι) :
    tauc2 ds c = tauc1 ds c ∧ tauc_true2 ds c = tauc_true1 ds c ∧
    (not_ice ds c = false → not_sliding ds c = true →
      tauc2 ds c = ds.tauc c ∧ tauc_true2 ds c = ds.tauc_true c) := by
  refine ⟨?_, ?_, ?_⟩
  · cases h : not_ice ds c <;> simp [tauc2, tauc1, h]
  · cases h : not_ice ds c <;> simp [tauc_true2, tauc_true1, h]
  · intro h _
    simp [tauc2, tauc1, tauc_true2, tauc_true1, h]

/-- C8 witness: on the concrete dataset `dsB` the ice, non-sliding cell keeps
its original field values 5 and 3 through the second masking step. -/
theorem C8_witness :
    not_ice dsB () = false ∧ not_sliding dsB () = true ∧
    tauc2 dsB () = 5 ∧ tauc_true2 dsB () = 3 := by
  have hni : not_ice dsB () = false := by norm_num [not_ice, dsB]
  have hns : not_sliding dsB () = true := by
    norm_num [not_sliding, u_scaled, v_scaled, dsB, secpera]
  have h := (C8_nonsliding_masks_only_taucdiff dsB ()).2.2 hni hns
  exact ⟨hni, hns, h.1, h.2⟩

/-- C10: the field of the first figure is the bare pointwise quotient of
`tauc_diff` by `tauc_true` with no zero guard, and at every non-ice cell both
the numerator and the denominator have been set to 0 by the masking steps. -/
theorem C10_rel_diff_no_guard {ι : Type} (ds : Dataset ι) (c : ι) :
    rel_diff ds c = tauc_diff2 ds c / tauc_true2 ds c ∧
    (not_ice ds c = true → tauc_diff2 ds c = 0 ∧ tauc_true2 ds c = 0) := by
  refine ⟨rfl, fun h => ⟨?_, ?_⟩⟩
  · simp [tauc_diff2, tauc_diff1, h]
  · simp [tauc_true2, h]

/-- C10 witness: on the concrete dataset `dsC` the single non-ice cell has
both the numerator and the denominator of the displayed quotient equal to 0. -/
theorem C10_witness :
    not_ice dsC () = true ∧ tauc_diff2 dsC () = 0 ∧ tauc_true2 dsC () = 0 := by
  have hni : not_ice dsC () = true := by norm_num [not_ice, dsC]
  have h := (C10_rel_diff_no_guard dsC ()).2 hni
  exact ⟨hni, h.1, h.2⟩

/-- Helper: starting from a file system with neither scratch file,
`write_state` leaves the file system exactly as it found it, whether it
completes or raises at any failure point — the `finally` block deletes every
scratch file that was created. -/
lemma write_state_clean (fp : WriteFail) (fs : List String)
    (h1 : o_filename ∉ fs) (h2 : o_diagnostics ∉ fs) :
    write_state_run fp fs = fs := by
  have hne : o_diagnostics ≠ o_filename := by decide
  cases fp <;>
    simp [write_state_run, write_state_body, fs_create, fs_remove, h1, h2, hne,
      List.erase_cons_head, List.erase_cons_tail]

/-- C4: a run of the `PIK` test — `setUp` dumping the fixture, the body either
raising an assertion before `write_state` or running `write_state` with any
failure point, then `tearDown` — leaves the file system exactly as it was: no
scratch or fixture file persists beyond the test invocation. -/
theorem C4_no_scratch_file_persists (b : Bool) (fp : WriteFail)
    (fs : List String) (h1 : o_filename ∉ fs) (h2 : o_diagnostics ∉ fs)
    (h3 : pik_fixture ∉ fs) :
    pik_test_run b fp fs = fs := by
  have hso : o_filename ≠ pik_fixture := by decide
  have hdo : o_diagnostics ≠ pik_fixture := by decide
  have h1' : o_filename ∉ pik_fixture :: fs := by
    simp [List.mem_cons, hso, h1]
  have h2' : o_diagnostics ∉ pik_fixture :: fs := by
    simp [List.mem_cons, hdo, h2]
  have hcreate : fs_create fs pik_fixture = pik_fixture :: fs := by
    simp [fs_create, h3]
  have hmid : (if b then fs_create fs pik_fixture
      else write_state_run fp (fs_create fs pik_fixture)) = pik_fixture :: fs := by
    rw [hcreate]
    cases b
    · simpa using write_state_clean fp (pik_fixture :: fs) h1' h2'
    · simp
  simp only [pik_test_run]
  rw [hmid]
  simp [fs_remove, List.erase_cons_head]

/-- C4 witness: a concrete run (no assertion failure, a diagnostics write
raising after both scratch files exist) starting from an empty file system
ends with an empty file system. -/
theorem C4_witness :
    pik_test_run false WriteFail.afterBothFiles [] = [] := by
  exact C4_no_scratch_file_persists false WriteFail.afterBothFiles []
    (by decide) (by decide) (by decide)

/-- C9: in `check_model` and `check_modifier` every `begin_pointwise_access`
is matched by an `end_pointwise_access` whether or not the time-series
assertions raise, and in `check_modifier` the end calls occur in reverse
order of the begin calls: the modifier's end precedes the model's end, while
the model's begin precedes the modifier's begin. -/
theorem C9_pointwise_access_bracketing (ok : Bool) :
    ((check_model_trace ok).count (AccessEv.beginAccess "model") =
      (check_model_trace ok).count (AccessEv.endAccess "model")) ∧
    ((check_modifier_trace ok).count (AccessEv.beginAccess "model") =
      (check_modifier_trace ok).count (AccessEv.endAccess "model")) ∧
    ((check_modifier_trace ok).count (AccessEv.beginAccess "modifier") =
      (check_modifier_trace ok).count (AccessEv.endAccess "modifier")) ∧
    (check_modifier_trace ok).indexOf (AccessEv.endAccess "modifier") <
      (check_modifier_trace ok).indexOf (AccessEv.endAccess "model") ∧
    (check_modifier_trace ok).indexOf (AccessEv.beginAccess "model") <
      (check_modifier_trace ok).indexOf (AccessEv.beginAccess "modifier") := by
  cases ok <;> decide

/-- C2: with the test geometry's latitude of -80 degrees and zero surface
elevation, the spec-modelled `"martin"` parameterization of `AtmospherePIK`
yields a mean annual temperature of exactly 248.13 K — the value the test's
`parameterizations` table passes to `check_model` for `"martin"` — with the
fixture's constant precipitation equal to 10. -/
theorem C2_martin_mean_annual_temp :
    martin_mean_annual_temp 0 pik_latitude = 24813 / 100 ∧
    pik_expected_T "martin" = Option.some (martin_mean_annual_temp 0 pik_latitude) ∧
    pik_precipitation = 10 := by
  have h : martin_mean_annual_temp 0 pik_latitude = 24813 / 100 := by
    rw [martin_mean_annual_temp, pik_latitude]
    rw [abs_of_nonpos (by norm_num)]
    norm_num
  refine ⟨h, ?_, rfl⟩
  rw [h]
  rfl

/-- C3: constructing `AtmospherePIK` with a parameterization name outside the
known set — in particular the test's `"invalid"` — yields a runtime error and
never succeeds silently. -/
theorem C3_unknown_parameterization_errors (p : String)
    (h : p ∉ pik_parameterization_names) :
    atmospherePIK_create p = Except.error ("invalid parameterization: " ++ p) ∧
    ∀ u : Unit, atmospherePIK_create p ≠ Except.ok u := by
  refine ⟨by simp [atmospherePIK_create, h], fun u => ?_⟩
  simp [atmospherePIK_create, h]

/-- C3 witness: the concrete name `"invalid"` used by the test is not a known
parameterization, and constructing with it yields the runtime error. -/
theorem C3_witness :
    "invalid" ∉ pik_parameterization_names ∧
    atmospherePIK_create "invalid" =
      Except.error ("invalid parameterization: " ++ "invalid") := by
  have h : "invalid" ∉ pik_parameterization_names := by decide
  exact ⟨h, (C3_unknown_parameterization_errors "invalid" h).1⟩
